import Mathlib

/-!
Shallow embedding of `mygeotab_async.py` (class `AsyncAPI`).

Python values that flow through the client (method parameters, decoded
JSON responses) are modelled by the inductive `Value`; Python dicts are
association lists with Python's update-in-place / append-on-new-key
semantics.  The network (`aiohttp.post` inside `_query`, together with
the external `mygeotab._process` that raises `MyGeotabException` when
the decoded payload carries an `error` object) is modelled by a script
of `QueryResponse`s consumed in order; every request sent is recorded
in a trace so that theorems can speak about the wire requests.
Exceptions are modelled by `Err`; coroutine suspension is irrelevant to
the sequential semantics of one call chain and is erased.
-/

namespace MyGeotab

/-- A decoded JSON / Python value. `null` is Python `None`. -/
inductive Value : Type where
  | null : Value
  | bool : Bool → Value
  | num : Int → Value
  | str : String → Value
  | arr : List Value → Value
  | obj : List (String × Value) → Value
deriving Repr

/-- Python `v is None`. -/
def Value.isNull : Value → Bool
  | .null => true
  | _ => false

/-- Python dict with string keys, as an insertion-ordered association list. -/
abbrev Dict := List (String × Value)

/-- Python truthiness of a decoded value (`if result:`, `if type_name:`). -/
def Value.truthy : Value → Bool
  | .null => false
  | .bool b => b
  | .num n => n != 0
  | .str s => s != ""
  | .arr xs => !xs.isEmpty
  | .obj kvs => !kvs.isEmpty

/-- Python `v == s` for a string literal `s`: only equal strings compare equal;
a value of any other type is simply unequal (no error). -/
def valueEqStr (v : Value) (s : String) : Bool :=
  match v with
  | .str t => t == s
  | _ => false

/-- `d[k]` lookup returning `none` when the key is absent. -/
def lookupKey (d : Dict) (k : String) : Option Value :=
  List.lookup k d

/-- `k in d`. -/
def hasKey (d : Dict) (k : String) : Bool :=
  (lookupKey d k).isSome

/-- `d[k] = v` with Python dict semantics: an existing key keeps its
position and gets the new value; a new key is appended. -/
def setKey (d : Dict) (k : String) (v : Value) : Dict :=
  match d with
  | [] => [(k, v)]
  | (k', v') :: rest => if k' = k then (k, v) :: rest else (k', v') :: setKey rest k v

/-- `del d[k]`: removes the (unique) binding of `k` when present. -/
def eraseKey (d : Dict) (k : String) : Dict :=
  match d with
  | [] => []
  | (k', v') :: rest => if k' = k then rest else (k', v') :: eraseKey rest k

/-- `result['k']` on a decoded value: `none` models both `KeyError`
(missing key) and `TypeError` (not a dict), raised at the call site. -/
def Value.getKey : Value → String → Option Value
  | .obj kvs, k => lookupKey kvs k
  | _, _ => none

/-- The session state held by the client (`mygeotab.Credentials`).
Field order follows the Python constructor
`Credentials(username, session_id, database, server, password=None)`. -/
structure Credentials : Type where
  username : Value
  sessionId : Value
  database : Value
  server : Value
  password : Value
deriving Repr

/-- Modelled from the spec: `Credentials.get_param` / `as_params()` lives in
the external `mygeotab` package, not in this repository's sources; §4.1 of
the spec says it renders the session as a mapping with keys `userName`,
`database`, `sessionId`. -/
def Credentials.get_param (c : Credentials) : Dict :=
  [("userName", c.username), ("database", c.database), ("sessionId", c.sessionId)]

/-- What the transport + `_process` step yields for one request: either the
decoded `result` field (null when absent), or a `MyGeotabException`
carrying the server error's name and message. -/
inductive QueryResponse : Type where
  | ok : Value → QueryResponse
  | fault : String → String → QueryResponse
deriving Repr

/-- Exceptions. `invalidArgument` is the bare `Exception` raised for a
missing method name (the spec's `InvalidArgumentError`); `fault` is
`MyGeotabException` (the spec's `ServerFault`); `authFailure` is
`AuthenticationException`; `keyError` and `attrError` model Python
`KeyError`/`TypeError` and `AttributeError` on `None`; `outOfResponses`
means the transport script ran dry; `outOfFuel` bounds the (in the source,
counter-guarded) recursion of `call`. -/
inductive Err : Type where
  | invalidArgument : String → Err
  | fault : String → String → Err
  | authFailure : Value → Value → Value → Err
  | keyError : String → Err
  | attrError : Err
  | outOfResponses : Err
  | outOfFuel : Err
deriving Repr

/-- Client + world state: the stored credentials and reauthorize counter
(instance attributes of `AsyncAPI`), the script of upcoming transport
responses, and the trace of requests sent so far (method, params). -/
structure St : Type where
  credentials : Option Credentials
  reauthorizeCount : Nat
  responses : List QueryResponse
  sent : List (Option String × Dict)
deriving Repr

/-- `_query(method, parameters)`: records the request (the `id: -1` envelope
field is constant and omitted from the trace) and consumes the next
scripted response, returning the decoded result or raising the fault. -/
def query (method : Option String) (parameters : Dict) (s : St) :
    Except Err Value × St :=
  let s := { s with sent := s.sent ++ [(method, parameters)] }
  match s.responses with
  | [] => (.error .outOfResponses, s)
  | r :: rest =>
    let s := { s with responses := rest }
    match r with
    | .ok v => (.ok v, s)
    | .fault n m => (.error (.fault n m), s)

/-- Lines 166-168: the `auth_data` mapping sent by `authenticate`. -/
def authData (cred : Credentials) : Dict :=
  [("database", cred.database), ("userName", cred.username),
   ("password", cred.password), ("global", .bool true)]

/-- `authenticate()` (lines 157-185). Reads the stored credentials (an
`AttributeError` if they are `None`), sends the `Authenticate` request,
and on a truthy result resolves the effective server and replaces the
stored credentials wholesale (the Python constructor call passes no
password, so the new instance's password is `None`).  A falsy result
falls through and returns `None` without touching the credentials.
An `InvalidUserException` fault becomes `AuthenticationException`. -/
def authenticate (s : St) : Except Err (Option Credentials) × St :=
  match s.credentials with
  | none => (.error .attrError, s)
  | some cred =>
    match query (some "Authenticate") (authData cred) s with
    | (.ok result, s') =>
      if result.truthy then
        match result.getKey "path" with
        | none => (.error (.keyError "path"), s')
        | some new_server =>
          let server := if valueEqStr new_server "ThisServer" then cred.server else new_server
          match result.getKey "credentials" with
          | none => (.error (.keyError "credentials"), s')
          | some c =>
            match c.getKey "userName" with
            | none => (.error (.keyError "userName"), s')
            | some u =>
              match c.getKey "sessionId" with
              | none => (.error (.keyError "sessionId"), s')
              | some sid =>
                match c.getKey "database" with
                | none => (.error (.keyError "database"), s')
                | some db =>
                  let newCred : Credentials :=
                    { username := u, sessionId := sid, database := db,
                      server := server, password := .null }
                  (.ok (some newCred), { s' with credentials := some newCred })
      else (.ok none, s')
    | (.error (.fault n m), s') =>
      if n = "InvalidUserException" then
        (.error (.authFailure cred.username cred.database cred.server), s')
      else (.error (.fault n m), s')
    | (.error e, s') => (.error e, s')

/-- Line 61-62: `if type_name: parameters['typeName'] = type_name`. -/
def mergeTypeName (parameters : Dict) (type_name : Value) : Dict :=
  if type_name.truthy then setKey parameters "typeName" type_name else parameters

/-- Lines 65-66: inject `credentials.get_param()` unless the key is already
present or the session id is falsy. -/
def injectCreds (parameters : Dict) (cred : Credentials) : Dict :=
  if !hasKey parameters "credentials" && cred.sessionId.truthy then
    setKey parameters "credentials" (.obj cred.get_param)
  else parameters

/-- `call(method, type_name=None, **parameters)` (lines 46-79), with a fuel
bound on the recursion (in the source the recursion is guarded by the
reauthorize counter, so depth never exceeds two when the counter starts
at most 1).  Note the retry on line 77 is
`self.call(method, parameters)`: the mutated parameter dict is passed
POSITIONALLY as `type_name`, with empty keyword parameters. -/
def call (fuel : Nat) (method : Option String) (type_name : Value)
    (parameters : Dict) (s : St) : Except Err Value × St :=
  match fuel with
  | 0 => (.error .outOfFuel, s)
  | fuel + 1 =>
    match method with
    | none => (.error (.invalidArgument "Must specify a method name"), s)
    | some m =>
      let ps := mergeTypeName parameters type_name
      let afterAuth : Except Err Unit × St :=
        match s.credentials with
        | none =>
          match authenticate s with
          | (.error e, s') => (.error e, s')
          | (.ok _, s') => (.ok (), s')
        | some _ => (.ok (), s)
      match afterAuth with
      | (.error e, s₁) => (.error e, s₁)
      | (.ok _, s₁) =>
        match s₁.credentials with
        | none => (.error .attrError, s₁)
        | some cred =>
          let ps := injectCreds ps cred
          match query (some m) ps s₁ with
          | (.ok result, s₂) =>
            if result.isNull then
              (.ok .null, s₂)
            else
              (.ok result, { s₂ with reauthorizeCount := 0 })
          | (.error (.fault n msg), s₂) =>
            if n = "InvalidUserException" ∧ s₂.reauthorizeCount = 0 then
              let s₃ := { s₂ with reauthorizeCount := s₂.reauthorizeCount + 1 }
              match authenticate s₃ with
              | (.error e, s₄) => (.error e, s₄)
              | (.ok _, s₄) => call fuel (some m) (.obj ps) [] s₄
            else (.error (.fault n msg), s₂)
          | (.error e, s₂) => (.error e, s₂)

/-- `multi_call(*calls)` (lines 81-91). -/
def multi_call (fuel : Nat) (calls : List (Value × Value)) (s : St) :
    Except Err Value × St :=
  let formatted_calls : List Value :=
    calls.map (fun c => .obj [("method", c.1), ("params", c.2)])
  call fuel (some "ExecuteMultiCall") .null [("calls", .arr formatted_calls)] s

/-- `get(type_name, **parameters)` (lines 93-103). -/
def get (fuel : Nat) (type_name : Value) (parameters : Dict) (s : St) :
    Except Err Value × St :=
  call fuel (some "Get") type_name parameters s

/-- `search(type_name, **parameters)` (lines 105-121). -/
def search (fuel : Nat) (type_name : Value) (parameters : Dict) (s : St) :
    Except Err Value × St :=
  if !parameters.isEmpty then
    let results_limit := (lookupKey parameters "resultsLimit").getD .null
    let parameters :=
      if results_limit.isNull then parameters
      else eraseKey parameters "resultsLimit"
    call fuel (some "Get") type_name
      [("resultsLimit", results_limit), ("search", .obj parameters)] s
  else get fuel type_name [] s

/-- `add(type_name, entity)` (lines 123-133). -/
def add (fuel : Nat) (type_name : Value) (entity : Value) (s : St) :
    Except Err Value × St :=
  call fuel (some "Add") type_name [("entity", entity)] s

/-- `set(type_name, entity)` (lines 135-144). -/
def set (fuel : Nat) (type_name : Value) (entity : Value) (s : St) :
    Except Err Value × St :=
  call fuel (some "Set") type_name [("entity", entity)] s

/-- `remove(type_name, entity)` (lines 146-155). -/
def remove (fuel : Nat) (type_name : Value) (entity : Value) (s : St) :
    Except Err Value × St :=
  call fuel (some "Remove") type_name [("entity", entity)] s

/-! ## Response shapes and expected values used in the statements -/

/-- A well-formed `Authenticate` success payload: `{path, credentials:
{userName, sessionId, database}}` (spec §6, "Authentication response
shape"). -/
def authResponse (path u sid db : Value) : Value :=
  .obj [("path", path),
        ("credentials", .obj [("userName", u), ("sessionId", sid), ("database", db)])]

/-- The credentials the spec says a successful `authenticate` must store:
a fresh instance built from the response's credentials object plus the
resolved server (`path` unless it is the literal `"ThisServer"`, in which
case the server already held).  The Python constructor call passes no
password, so the new instance's password is `None`. -/
def replacedCred (cred : Credentials) (path u sid db : Value) : Credentials :=
  { username := u, sessionId := sid, database := db,
    server := if valueEqStr path "ThisServer" then cred.server else path,
    password := .null }

/-! ## Operations on one client, for invariant statements -/

/-- One public operation on a client: a `call` (with a fuel bound for its
recursion) or an `authenticate`. -/
inductive Op : Type where
  | opCall : Nat → Option String → Value → Dict → Op
  | opAuthenticate : Op
deriving Repr

/-- Run one operation, keeping the resulting client/world state whether the
operation returned or raised. -/
def runOp (s : St) (op : Op) : St :=
  match op with
  | .opCall fuel m tn p => (call fuel m tn p s).2
  | .opAuthenticate => (authenticate s).2

/-- Run a sequence of operations on one client. -/
def runOps (s : St) (ops : List Op) : St :=
  ops.foldl runOp s

/-! ## Concrete fixtures used by closed theorems -/

/-- A client session as created at construction time: username, password,
database, server, and a live session id. -/
def credA : Credentials :=
  { username := .str "user@example.com", sessionId := .str "session1",
    database := .str "acme", server := .str "my.geotab.com",
    password := .str "pw" }

/-- Credentials with no session id yet (unauthenticated). -/
def credN : Credentials :=
  { username := .str "user@example.com", sessionId := .null,
    database := .str "acme", server := .str "my.geotab.com",
    password := .str "pw" }

/-- A successful `Authenticate` response keeping the current server and
issuing session id "session2". -/
def authRespA : QueryResponse :=
  .ok (authResponse (.str "ThisServer") (.str "user@example.com")
        (.str "session2") (.str "acme"))

/-! ## Execution lemmas -/

theorem query_cons (m : Option String) (p : Dict) (c : Option Credentials)
    (k : Nat) (r : QueryResponse) (rest : List QueryResponse)
    (tr : List (Option String × Dict)) :
    query m p ⟨c, k, r :: rest, tr⟩ =
      (match r with
       | .ok v => .ok v
       | .fault nm msg => .error (.fault nm msg),
       ⟨c, k, rest, tr ++ [(m, p)]⟩) := by
  cases r <;> rfl

theorem authenticate_ok (cred : Credentials) (k : Nat) (path u sid db : Value)
    (rest : List QueryResponse) (tr : List (Option String × Dict)) :
    authenticate ⟨some cred, k, .ok (authResponse path u sid db) :: rest, tr⟩ =
      (.ok (some (replacedCred cred path u sid db)),
       ⟨some (replacedCred cred path u sid db), k, rest,
        tr ++ [(some "Authenticate", authData cred)]⟩) := rfl

theorem call_ok_cons (fuel : Nat) (m : String) (tn : Value) (p : Dict)
    (cred : Credentials) (k : Nat) (v : Value) (rest : List QueryResponse)
    (tr : List (Option String × Dict)) :
    call (fuel + 1) (some m) tn p ⟨some cred, k, .ok v :: rest, tr⟩ =
      (if v.isNull then .ok .null else .ok v,
       ⟨some cred, if v.isNull then k else 0, rest,
        tr ++ [(some m, injectCreds (mergeTypeName p tn) cred)]⟩) := by
  cases v <;> rfl

theorem call_fault_noretry (fuel : Nat) (m : String) (tn : Value) (p : Dict)
    (cred : Credentials) (k : Nat) (nm msg : String) (rest : List QueryResponse)
    (tr : List (Option String × Dict)) (h : ¬(nm = "InvalidUserException" ∧ k = 0)) :
    call (fuel + 1) (some m) tn p ⟨some cred, k, .fault nm msg :: rest, tr⟩ =
      (.error (.fault nm msg),
       ⟨some cred, k, rest,
        tr ++ [(some m, injectCreds (mergeTypeName p tn) cred)]⟩) := by
  simp only [call, query]
  rw [if_neg h]

theorem call_fault_retry (fuel : Nat) (m : String) (tn : Value) (p : Dict)
    (cred : Credentials) (msg : String) (rest : List QueryResponse)
    (tr : List (Option String × Dict)) :
    call (fuel + 1) (some m) tn p
        ⟨some cred, 0, .fault "InvalidUserException" msg :: rest, tr⟩ =
      (match authenticate ⟨some cred, 1, rest,
               tr ++ [(some m, injectCreds (mergeTypeName p tn) cred)]⟩ with
       | (.error e, s₄) => (.error e, s₄)
       | (.ok _, s₄) =>
         call fuel (some m) (.obj (injectCreds (mergeTypeName p tn) cred)) [] s₄) := rfl

theorem call_fault_count_one (fuel : Nat) (m : String) (tn : Value) (p : Dict)
    (cred : Credentials) (nm msg : String) (rest : List QueryResponse)
    (tr : List (Option String × Dict)) :
    call (fuel + 1) (some m) tn p ⟨some cred, 1, .fault nm msg :: rest, tr⟩ =
      (.error (.fault nm msg),
       ⟨some cred, 1, rest,
        tr ++ [(some m, injectCreds (mergeTypeName p tn) cred)]⟩) := by
  apply call_fault_noretry
  simp

/-! ## Dictionary lemmas -/

theorem setKey_of_hasKey_eq_false (d : Dict) (k : String) (v : Value)
    (h : hasKey d k = false) : setKey d k v = d ++ [(k, v)] := by
  induction d with
  | nil => rfl
  | cons hd tl ih =>
    obtain ⟨k', v'⟩ := hd
    by_cases hk : k' = k
    · subst hk
      simp [hasKey, lookupKey, List.lookup] at h
    · simp only [setKey, if_neg hk, List.cons_append, List.cons.injEq, true_and]
      apply ih
      have hb : (k == k') = false := beq_eq_false_iff_ne.mpr (Ne.symm hk)
      simp only [hasKey, lookupKey, List.lookup, hb] at h
      exact h

theorem lookupKey_setKey_ne (d : Dict) (k k' : String) (v : Value)
    (h : k' ≠ k) : lookupKey (setKey d k v) k' = lookupKey d k' := by
  have hb : (k' == k) = false := beq_eq_false_iff_ne.mpr h
  induction d with
  | nil => simp [setKey, lookupKey, List.lookup, hb]
  | cons hd tl ih =>
    obtain ⟨k₀, v₀⟩ := hd
    by_cases hk : k₀ = k
    · subst hk
      simp [setKey, lookupKey, List.lookup, hb]
    · simp only [setKey, if_neg hk]
      simp only [lookupKey, List.lookup] at ih ⊢
      cases hbeq : k' == k₀ with
      | true => simp [hbeq]
      | false => simpa [hbeq] using ih

theorem hasKey_mergeTypeName (p : Dict) (tn : Value) (k : String)
    (h : k ≠ "typeName") : hasKey (mergeTypeName p tn) k = hasKey p k := by
  unfold mergeTypeName
  split
  · simp [hasKey, lookupKey_setKey_ne _ _ _ _ h]
  · rfl

theorem injectCreds_of_hasKey (p : Dict) (cred : Credentials)
    (h : hasKey p "credentials" = true) : injectCreds p cred = p := by
  simp [injectCreds, h]

theorem injectCreds_of_no_session (p : Dict) (cred : Credentials)
    (h : cred.sessionId.truthy = false) : injectCreds p cred = p := by
  simp [injectCreds, h]

theorem injectCreds_of_session (p : Dict) (cred : Credentials)
    (h1 : hasKey p "credentials" = false) (h2 : cred.sessionId.truthy = true) :
    injectCreds p cred = p ++ [("credentials", .obj cred.get_param)] := by
  simp [injectCreds, h1, h2, setKey_of_hasKey_eq_false _ _ _ h1]

/-! ## Reauthorize-counter lemmas -/

theorem query_reauthorizeCount (m : Option String) (p : Dict) (s : St) :
    (query m p s).2.reauthorizeCount = s.reauthorizeCount := by
  rcases s with ⟨c, k, rs, tr⟩
  cases rs with
  | nil => rfl
  | cons r rest => cases r <;> rfl

theorem authenticate_reauthorizeCount (s : St) :
    (authenticate s).2.reauthorizeCount = s.reauthorizeCount := by
  rcases s with ⟨c, k, rs, tr⟩
  cases c with
  | none => rfl
  | some cred =>
    cases rs with
    | nil => rfl
    | cons r rest =>
      cases r with
      | fault nm msg =>
        simp only [authenticate, query_cons]
        split <;> rfl
      | ok v =>
        simp only [authenticate, query_cons]
        repeat' split <;> try rfl

theorem call_reauthorizeCount_le (fuel : Nat) :
    ∀ (m : Option String) (tn : Value) (p : Dict) (s : St),
      s.reauthorizeCount ≤ 1 → (call fuel m tn p s).2.reauthorizeCount ≤ 1 := by
  induction fuel with
  | zero => intro m tn p s h; exact h
  | succ fuel ih =>
    intro m tn p s h
    cases m with
    | none => exact h
    | some mm =>
      rcases s with ⟨c, k, rs, tr⟩
      cases c with
      | none => exact h
      | some cred =>
        cases rs with
        | nil => exact h
        | cons r rest =>
          cases r with
          | ok v =>
            rw [call_ok_cons]
            have hk : k ≤ 1 := h
            cases hv : v.isNull with
            | true => simpa [hv] using hk
            | false => simp [hv]
          | fault nm msg =>
            by_cases hcond : nm = "InvalidUserException" ∧ k = 0
            · obtain ⟨hnm, hk⟩ := hcond
              subst hnm; subst hk
              rw [call_fault_retry]
              rcases ha : authenticate ⟨some cred, 1, rest,
                  tr ++ [(some mm, injectCreds (mergeTypeName p tn) cred)]⟩ with ⟨res, s₄⟩
              have hc : s₄.reauthorizeCount = 1 := by
                have := authenticate_reauthorizeCount ⟨some cred, 1, rest,
                  tr ++ [(some mm, injectCreds (mergeTypeName p tn) cred)]⟩
                rw [ha] at this
                exact this
              cases res with
              | error e => simp [hc]
              | ok cnew =>
                exact ih (some mm) (.obj (injectCreds (mergeTypeName p tn) cred)) [] s₄
                  (by omega)
            · rw [call_fault_noretry _ _ _ _ _ _ _ _ _ _ hcond]
              exact h

/-! ## Claims -/

/-- C1 (code bug): the spec says a call hit by an "InvalidUserException"
fault with the reauthorize counter at 0 must re-authenticate and retry the
ENTIRE call with the exact original argument set — original method, the
original type_name merged under 'typeName', the original parameter
mapping.  The code instead executes `self.call(method, parameters)` (line
77), passing the mutated parameter dict POSITIONALLY as `type_name`, so
the retried request's params nest the whole original mapping under
'typeName'.  This theorem evaluates the code at the failing input: the
first request carries `{typeName: "Device", credentials: …}` while the
retried (third) request carries
`{typeName: {typeName: "Device", credentials: …}, credentials: …}` — not
the original argument set (the retried result is still the one
returned). -/
theorem C1_retry_mangles_arguments :
    call 2 (some "Get") (.str "Device") []
        ⟨some credA, 0,
         [.fault "InvalidUserException" "expired", authRespA, .ok (.str "data")], []⟩ =
      (.ok (.str "data"),
       ⟨some { username := .str "user@example.com", sessionId := .str "session2",
               database := .str "acme", server := .str "my.geotab.com",
               password := .null },
        0, [],
        [(some "Get",
          [("typeName", .str "Device"),
           ("credentials",
            .obj [("userName", .str "user@example.com"), ("database", .str "acme"),
                  ("sessionId", .str "session1")])]),
         (some "Authenticate",
          [("database", .str "acme"), ("userName", .str "user@example.com"),
           ("password", .str "pw"), ("global", .bool true)]),
         (some "Get",
          [("typeName",
            .obj [("typeName", .str "Device"),
                  ("credentials",
                   .obj [("userName", .str "user@example.com"),
                         ("database", .str "acme"),
                         ("sessionId", .str "session1")])]),
           ("credentials",
            .obj [("userName", .str "user@example.com"), ("database", .str "acme"),
                  ("sessionId", .str "session2")])])]⟩) := rfl

/-- C3 (amended): a `call` whose method is null fails with the
invalid-argument error (message "Must specify a method name") with the
state completely untouched — no authentication, no request sent.  (The
claim's empty-string half fails on the code; see the counterexample.) -/
theorem C3_null_method_rejected (fuel : Nat) (type_name : Value)
    (parameters : Dict) (s : St) :
    call (fuel + 1) none type_name parameters s =
      (.error (.invalidArgument "Must specify a method name"), s) := rfl

/-- C3 counterexample: the claim says an EMPTY-STRING method also fails
with the invalid-argument error before any network access; but the code
only checks `method is None` (line 57), so with method `""` the call sends
a request (with the empty method name on the wire) and returns the
server's result — no `InvalidArgumentError` is raised. -/
theorem C3_empty_method_not_rejected :
    call 1 (some "") .null [] ⟨some credA, 0, [.ok (.str "r")], []⟩ =
      (.ok (.str "r"),
       ⟨some credA, 0, [],
        [(some "",
          [("credentials",
            .obj [("userName", .str "user@example.com"), ("database", .str "acme"),
                  ("sessionId", .str "session1")])])]⟩) := rfl

/-- C4 (amended): whenever `call` returns a NON-null result, the
reauthorize counter is 0 at return (line 71 resets it).  The original
claim also covered a null result; that half fails on the code, which skips
the reset when the result is null — see the counterexample. -/
theorem C4_nonnull_result_resets_counter (fuel : Nat) :
    ∀ (m : Option String) (tn : Value) (p : Dict) (s : St) (v : Value) (s' : St),
      call fuel m tn p s = (.ok v, s') → v.isNull = false →
      s'.reauthorizeCount = 0 := by
  induction fuel with
  | zero =>
    intro m tn p s v s' h hv
    simp [call] at h
  | succ fuel ih =>
    intro m tn p s v s' h hv
    cases m with
    | none => simp [call] at h
    | some mm =>
      rcases s with ⟨c, k, rs, tr⟩
      cases c with
      | none =>
        have hred : call (fuel + 1) (some mm) tn p ⟨none, k, rs, tr⟩ =
            (.error .attrError, ⟨none, k, rs, tr⟩) := rfl
        rw [hred] at h
        simp at h
      | some cred =>
        cases rs with
        | nil =>
          have hred : call (fuel + 1) (some mm) tn p ⟨some cred, k, [], tr⟩ =
              (.error .outOfResponses,
               ⟨some cred, k, [],
                tr ++ [(some mm, injectCreds (mergeTypeName p tn) cred)]⟩) := rfl
          rw [hred] at h
          simp at h
        | cons r rest =>
          cases r with
          | ok v₀ =>
            rw [call_ok_cons] at h
            cases hv₀ : v₀.isNull with
            | true =>
              simp only [hv₀, if_true, Prod.mk.injEq, Except.ok.injEq] at h
              obtain ⟨h1, h2⟩ := h
              subst h1
              simp [Value.isNull] at hv
            | false =>
              simp only [hv₀, if_false, Prod.mk.injEq, Except.ok.injEq] at h
              obtain ⟨h1, h2⟩ := h
              subst h2
              rfl
          | fault nm msg =>
            by_cases hcond : nm = "InvalidUserException" ∧ k = 0
            · obtain ⟨hnm, hk⟩ := hcond
              subst hnm; subst hk
              rw [call_fault_retry] at h
              rcases ha : authenticate ⟨some cred, 1, rest,
                  tr ++ [(some mm, injectCreds (mergeTypeName p tn) cred)]⟩ with ⟨res, s₄⟩
              rw [ha] at h
              cases res with
              | error e => simp at h
              | ok cnew => exact ih _ _ _ _ _ _ h hv
            · rw [call_fault_noretry _ _ _ _ _ _ _ _ _ _ hcond] at h
              simp at h

/-- C4 witness: a concrete call that returns a non-null result, with the
counter 0 at return. -/
theorem C4_nonnull_result_resets_counter_witness :
    call 1 (some "Get") (.str "Device") [] ⟨some credA, 0, [.ok (.str "r")], []⟩ =
      (.ok (.str "r"),
       ⟨some credA, 0, [],
        [(some "Get",
          [("typeName", .str "Device"),
           ("credentials",
            .obj [("userName", .str "user@example.com"), ("database", .str "acme"),
                  ("sessionId", .str "session1")])])]⟩)
    ∧ (Value.str "r").isNull = false
    ∧ (⟨some credA, 0, [],
        [(some "Get",
          [("typeName", .str "Device"),
           ("credentials",
            .obj [("userName", .str "user@example.com"), ("database", .str "acme"),
                  ("sessionId", .str "session1")])])]⟩ : St).reauthorizeCount = 0 :=
  ⟨rfl, rfl, C4_nonnull_result_resets_counter 1 (some "Get") (.str "Device") []
    ⟨some credA, 0, [.ok (.str "r")], []⟩ (.str "r") _ rfl rfl⟩

/-- C4 counterexample: the claim says the counter is 0 after EVERY call
that completes without a fault, including a null result.  But a call whose
first response faults "InvalidUserException" and whose retried query
returns null completes without a fault, returns null, and leaves the
counter at 1 (the reset on line 71 only runs for a non-null result). -/
theorem C4_null_result_keeps_counter :
    (call 2 (some "Get") (.str "Device") []
        ⟨some credA, 0,
         [.fault "InvalidUserException" "expired", authRespA, .ok .null], []⟩).1 =
      .ok Value.null
    ∧ (call 2 (some "Get") (.str "Device") []
        ⟨some credA, 0,
         [.fault "InvalidUserException" "expired", authRespA, .ok .null], []⟩).2.reauthorizeCount = 1 :=
  ⟨rfl, rfl⟩

/-- C5: `multi_call` maps each (method, parameters) pair into a
`{method, params}` object, preserving order (the list map), and invokes
`call` with method 'ExecuteMultiCall' and the mapped sequence under
parameter key 'calls'; and (second conjunct) the request actually sent
carries exactly those params (for a session that injects no
credentials). -/
theorem C5_multi_call_wiring (fuel : Nat) (calls : List (Value × Value)) (s : St) :
    multi_call fuel calls s =
      call fuel (some "ExecuteMultiCall") .null
        [("calls", .arr (calls.map fun c => .obj [("method", c.1), ("params", c.2)]))] s
    ∧ ∀ (cred : Credentials) (k : Nat) (v : Value) (rest : List QueryResponse)
        (tr : List (Option String × Dict)),
        cred.sessionId.truthy = false →
        (multi_call (fuel + 1) calls ⟨some cred, k, .ok v :: rest, tr⟩).2.sent =
          tr ++ [(some "ExecuteMultiCall",
                  [("calls",
                    .arr (calls.map fun c => .obj [("method", c.1), ("params", c.2)]))])] := by
  refine ⟨rfl, ?_⟩
  intro cred k v rest tr hsid
  have h1 : multi_call (fuel + 1) calls (⟨some cred, k, .ok v :: rest, tr⟩ : St) =
      call (fuel + 1) (some "ExecuteMultiCall") .null
        [("calls", .arr (calls.map fun c => .obj [("method", c.1), ("params", c.2)]))]
        ⟨some cred, k, .ok v :: rest, tr⟩ := rfl
  rw [h1, call_ok_cons]
  show tr ++ [(some "ExecuteMultiCall",
       injectCreds
         (mergeTypeName
           [("calls", .arr (calls.map fun c => .obj [("method", c.1), ("params", c.2)]))]
           .null)
         cred)] = _
  rw [injectCreds_of_no_session _ _ hsid]
  rfl

/-- C5 witness: the spec's own example,
`multi_call([("Get", {"typeName": "Trip"})])`. -/
theorem C5_multi_call_wiring_witness :
    (Value.null : Value).truthy = false
    ∧ (multi_call 1 [(.str "Get", .obj [("typeName", .str "Trip")])]
        ⟨some credN, 0, [.ok (.str "r")], []⟩).2.sent =
      [(some "ExecuteMultiCall",
        [("calls",
          .arr [.obj [("method", .str "Get"),
                      ("params", .obj [("typeName", .str "Trip")])]])])] :=
  ⟨rfl,
   (C5_multi_call_wiring 0 [(.str "Get", .obj [("typeName", .str "Trip")])]
      ⟨some credN, 0, [.ok (.str "r")], []⟩).2 credN 0 (.str "r") [] [] rfl⟩

/-- C6 (amended): with a non-empty parameter mapping, `search` reads the
optional 'resultsLimit' value (defaulting to null), removes the key ONLY
when that value is non-null — a 'resultsLimit' key bound to null stays in
the mapping — wraps the remaining parameters under 'search', and issues
`call('Get', type_name, resultsLimit=<extracted>, search=<wrapped>)`.
The second conjunct is the claim's example: `search(type_name,
resultsLimit=5, name="x")` sends params
`{typeName, resultsLimit: 5, search: {name: "x"}}`. -/
theorem C6_search_extraction :
    (∀ (fuel : Nat) (tn : Value) (p : Dict) (s : St), p.isEmpty = false →
       search fuel tn p s =
         call fuel (some "Get") tn
           [("resultsLimit", (lookupKey p "resultsLimit").getD .null),
            ("search",
             .obj (if ((lookupKey p "resultsLimit").getD Value.null).isNull then p
                   else eraseKey p "resultsLimit"))] s)
    ∧ (∀ (fuel : Nat) (cred : Credentials) (k : Nat) (rest : List QueryResponse)
         (tr : List (Option String × Dict)),
       cred.sessionId.truthy = false →
       (search (fuel + 1) (.str "Device")
          [("resultsLimit", .num 5), ("name", .str "x")]
          ⟨some cred, k, .ok (.str "r") :: rest, tr⟩).2.sent =
         tr ++ [(some "Get",
                 [("resultsLimit", .num 5),
                  ("search", .obj [("name", .str "x")]),
                  ("typeName", .str "Device")])]) := by
  constructor
  · intro fuel tn p s hp
    simp [search, hp]
  · intro fuel cred k rest tr hsid
    have h1 : search (fuel + 1) (.str "Device")
        [("resultsLimit", .num 5), ("name", .str "x")]
        (⟨some cred, k, .ok (.str "r") :: rest, tr⟩ : St) =
      call (fuel + 1) (some "Get") (.str "Device")
        [("resultsLimit", .num 5), ("search", .obj [("name", .str "x")])]
        ⟨some cred, k, .ok (.str "r") :: rest, tr⟩ := rfl
    rw [h1, call_ok_cons]
    show tr ++ [(some "Get",
         injectCreds
           (mergeTypeName
             [("resultsLimit", .num 5), ("search", .obj [("name", .str "x")])]
             (.str "Device"))
           cred)] = _
    rw [injectCreds_of_no_session _ _ hsid]
    rfl

/-- C6 witness: applying the general wiring at a concrete non-empty
parameter mapping. -/
theorem C6_search_extraction_witness :
    ([("name", Value.str "x")] : Dict).isEmpty = false
    ∧ search 1 (.str "Device") [("name", .str "x")]
        ⟨some credN, 0, [.ok (.str "r")], []⟩ =
      call 1 (some "Get") (.str "Device")
        [("resultsLimit", .null), ("search", .obj [("name", .str "x")])]
        ⟨some credN, 0, [.ok (.str "r")], []⟩ :=
  ⟨rfl,
   C6_search_extraction.1 1 (.str "Device") [("name", .str "x")]
     ⟨some credN, 0, [.ok (.str "r")], []⟩ rfl⟩

/-- C6 counterexample: the claim says the 'resultsLimit' key is removed
from the mapping whenever it is PRESENT.  But the code (lines 116-118)
removes it only when its value is not None: with parameters
`{resultsLimit: null, name: "x"}` the key is present, yet the request sent
still carries it INSIDE the wrapped search mapping (and null as the
top-level resultsLimit), instead of `search = {name: "x"}`. -/
theorem C6_null_resultsLimit_not_removed :
    (search 1 (.str "Device") [("resultsLimit", .null), ("name", .str "x")]
        ⟨some credN, 0, [.ok (.str "r")], []⟩).2.sent =
      [(some "Get",
        [("resultsLimit", Value.null),
         ("search", .obj [("resultsLimit", Value.null), ("name", .str "x")]),
         ("typeName", .str "Device")])]
    ∧ (lookupKey [("resultsLimit", Value.null), ("name", Value.str "x")]
         "resultsLimit").isSome = true :=
  ⟨rfl, rfl⟩

/-- C7: on a well-formed non-null `authenticate` response the client
resolves the effective server — the response's 'path' unless it is the
literal "ThisServer", in which case the server already stored — and
replaces its stored Credentials wholesale with a new instance built from
the response's credentials object (userName, sessionId, database) plus the
resolved server, returning the new Credentials (`replacedCred` spells out
exactly that expectation, including that "ThisServer" keeps `cred.server`
and any other hostname replaces it — instantiated in the last two
conjuncts). -/
theorem C7_authenticate_replaces_credentials (cred : Credentials) (k : Nat)
    (path u sid db : Value) (rest : List QueryResponse)
    (tr : List (Option String × Dict)) :
    (authenticate ⟨some cred, k, .ok (authResponse path u sid db) :: rest, tr⟩ =
      (.ok (some (replacedCred cred path u sid db)),
       ⟨some (replacedCred cred path u sid db), k, rest,
        tr ++ [(some "Authenticate", authData cred)]⟩))
    ∧ (replacedCred cred (.str "ThisServer") u sid db).server = cred.server
    ∧ (replacedCred cred (.str "my23.geotab.com") u sid db).server =
        .str "my23.geotab.com" :=
  ⟨authenticate_ok cred k path u sid db rest tr, rfl, rfl⟩

/-- C9: `search(type_name)` with an empty parameter mapping is exactly
`get(type_name)` with no parameters — same result and same state, hence
the same request — and both are `call('Get', type_name)`. -/
theorem C9_search_empty_is_get (fuel : Nat) (type_name : Value) (s : St) :
    search fuel type_name [] s = get fuel type_name [] s
    ∧ get fuel type_name [] s = call fuel (some "Get") type_name [] s :=
  ⟨rfl, rfl⟩

/-- C2: re-authentication is attempted at most once per call invocation.
First conjunct: after a first "InvalidUserException" fault (with counter
0), a successful re-authentication and a SECOND "InvalidUserException"
fault, `call` propagates the second fault; the final state shows exactly
three requests were sent (original, Authenticate, one retry) and the
remaining response script is untouched — no further retry.  Second
conjunct: a fault with any other name propagates immediately, with
exactly one request sent, credentials and counter unchanged — no retry,
no re-authentication. -/
theorem C2_at_most_one_retry (fuel : Nat) (m : String) (tn : Value) (p : Dict)
    (cred : Credentials) (tr : List (Option String × Dict)) :
    (∀ (msgA msg : String) (path u sid db : Value) (rest : List QueryResponse),
       call (fuel + 1 + 1) (some m) tn p
           ⟨some cred, 0,
            .fault "InvalidUserException" msgA
              :: .ok (authResponse path u sid db)
              :: .fault "InvalidUserException" msg :: rest, tr⟩ =
         (.error (.fault "InvalidUserException" msg),
          ⟨some (replacedCred cred path u sid db), 1, rest,
           tr ++ [(some m, injectCreds (mergeTypeName p tn) cred),
                  (some "Authenticate", authData cred),
                  (some m,
                   injectCreds
                     (mergeTypeName [] (.obj (injectCreds (mergeTypeName p tn) cred)))
                     (replacedCred cred path u sid db))]⟩))
    ∧ (∀ (k : Nat) (nm msg : String) (rest : List QueryResponse),
       nm ≠ "InvalidUserException" →
       call (fuel + 1) (some m) tn p ⟨some cred, k, .fault nm msg :: rest, tr⟩ =
         (.error (.fault nm msg),
          ⟨some cred, k, rest,
           tr ++ [(some m, injectCreds (mergeTypeName p tn) cred)]⟩)) := by
  constructor
  · intro msgA msg path u sid db rest
    rw [call_fault_retry, authenticate_ok]
    dsimp only
    rw [call_fault_count_one]
    simp [List.append_assoc]
  · intro k nm msg rest hnm
    exact call_fault_noretry fuel m tn p cred k nm msg rest tr (fun hc => hnm hc.1)

/-- C2 witness: a concrete fault with a different name
("DbUnavailableException") propagates immediately with one request sent
and no retry. -/
theorem C2_at_most_one_retry_witness :
    ("DbUnavailableException" : String) ≠ "InvalidUserException"
    ∧ call 1 (some "Get") (.str "Device") []
        ⟨some credA, 0, [.fault "DbUnavailableException" "down"], []⟩ =
      (.error (.fault "DbUnavailableException" "down"),
       ⟨some credA, 0, [],
        [(some "Get",
          [("typeName", .str "Device"),
           ("credentials",
            .obj [("userName", .str "user@example.com"), ("database", .str "acme"),
                  ("sessionId", .str "session1")])])]⟩) :=
  ⟨by decide,
   (C2_at_most_one_retry 0 "Get" (.str "Device") [] credA []).2
     0 "DbUnavailableException" "down" [] (by decide)⟩

/-- C8: a `call` leaves a caller-supplied 'credentials' parameter
untouched (first conjunct: the request carries exactly the caller's
mapping after the typeName merge); when no 'credentials' key is present
and the stored session id is truthy (non-empty), the credentials'
parameter rendering is appended under key 'credentials' before the
request is sent (second conjunct); and when the session id is falsy,
nothing is injected (third conjunct). -/
theorem C8_credentials_injection (fuel : Nat) (m : String) (tn : Value) (p : Dict)
    (cred : Credentials) (k : Nat) (v : Value) (rest : List QueryResponse)
    (tr : List (Option String × Dict)) :
    (hasKey p "credentials" = true →
       (call (fuel + 1) (some m) tn p ⟨some cred, k, .ok v :: rest, tr⟩).2.sent =
         tr ++ [(some m, mergeTypeName p tn)])
    ∧ (hasKey p "credentials" = false → cred.sessionId.truthy = true →
       (call (fuel + 1) (some m) tn p ⟨some cred, k, .ok v :: rest, tr⟩).2.sent =
         tr ++ [(some m,
                 mergeTypeName p tn ++ [("credentials", .obj cred.get_param)])])
    ∧ (hasKey p "credentials" = false → cred.sessionId.truthy = false →
       (call (fuel + 1) (some m) tn p ⟨some cred, k, .ok v :: rest, tr⟩).2.sent =
         tr ++ [(some m, mergeTypeName p tn)]) := by
  have hne : ("credentials" : String) ≠ "typeName" := by decide
  refine ⟨?_, ?_, ?_⟩
  · intro h1
    rw [call_ok_cons]
    show tr ++ [(some m, injectCreds (mergeTypeName p tn) cred)] = _
    rw [injectCreds_of_hasKey _ _ (by rw [hasKey_mergeTypeName _ _ _ hne]; exact h1)]
  · intro h1 h2
    rw [call_ok_cons]
    show tr ++ [(some m, injectCreds (mergeTypeName p tn) cred)] = _
    rw [injectCreds_of_session _ _ (by rw [hasKey_mergeTypeName _ _ _ hne]; exact h1) h2]
  · intro h1 h2
    rw [call_ok_cons]
    show tr ++ [(some m, injectCreds (mergeTypeName p tn) cred)] = _
    rw [injectCreds_of_no_session _ _ h2]

/-- C8 witness: with no caller-supplied 'credentials' key and an
authenticated session, the rendered credentials are injected into the
request. -/
theorem C8_credentials_injection_witness :
    hasKey [] "credentials" = false
    ∧ credA.sessionId.truthy = true
    ∧ (call 1 (some "Get") (.str "Device") []
        ⟨some credA, 0, [.ok (.str "r")], []⟩).2.sent =
      [(some "Get",
        mergeTypeName [] (.str "Device") ++ [("credentials", .obj credA.get_param)])] :=
  ⟨rfl, rfl,
   (C8_credentials_injection 0 "Get" (.str "Device") [] credA 0 (.str "r") [] []).2.1
     rfl rfl⟩

/-- C10: the per-client reauthorize counter never exceeds 1: `call` either
resets it to 0 (non-null result) or increments it only under the guard
that it currently equals 0, and `authenticate` never touches it, so no
sequence of call/authenticate operations run on one client can drive the
counter above 1. -/
theorem C10_counter_at_most_one (ops : List Op) (s : St)
    (h : s.reauthorizeCount ≤ 1) :
    (runOps s ops).reauthorizeCount ≤ 1 := by
  induction ops generalizing s with
  | nil => exact h
  | cons op rest ih =>
    have h1 : (runOp s op).reauthorizeCount ≤ 1 := by
      cases op with
      | opCall fuel m tn p => exact call_reauthorizeCount_le fuel m tn p s h
      | opAuthenticate =>
        show (authenticate s).2.reauthorizeCount ≤ 1
        rw [authenticate_reauthorizeCount]
        exact h
    exact ih (runOp s op) h1

/-- C10 witness: a concrete operation sequence (a call that triggers the
one permitted retry, then an authenticate, then another call) starting
from a fresh counter, ending with the counter at most 1. -/
theorem C10_counter_at_most_one_witness :
    (⟨some credA, 0,
      [.fault "InvalidUserException" "expired", authRespA, .ok .null,
       authRespA, .ok (.str "r")], []⟩ : St).reauthorizeCount ≤ 1
    ∧ (runOps
        ⟨some credA, 0,
         [.fault "InvalidUserException" "expired", authRespA, .ok .null,
          authRespA, .ok (.str "r")], []⟩
        [.opCall 2 (some "Get") (.str "Device") [], .opAuthenticate,
         .opCall 2 (some "Get") (.str "Device") []]).reauthorizeCount ≤ 1 :=
  ⟨by decide,
   C10_counter_at_most_one
     [.opCall 2 (some "Get") (.str "Device") [], .opAuthenticate,
      .opCall 2 (some "Get") (.str "Device") []]
     ⟨some credA, 0,
      [.fault "InvalidUserException" "expired", authRespA, .ok .null,
       authRespA, .ok (.str "r")], []⟩
     (by decide)⟩

end MyGeotab
